import Mathlib

/-!
Verification of the catalog reconciliation and synchronization engine
(`src/inventory_master_sync.py` and `src/standalone_json_updater.py`).

The per-item decision ladder, the per-item processing step with its remote
effects, the end-of-run ledger persistence, the product-shell creation
payload and the standalone cost/compare updater are embedded as pure Lean
functions, translated branch for branch from the Python source.  Remote
collaborators (Shopify product creation, the status lookup, the Corvus
skeleton resolver) are modelled as explicit oracle parameters: their
responses are inputs of the run, never recomputed.
-/

/-! ## Configuration constants (inventory_master_sync.py lines 35-38) -/

def DRY_RUN : Bool := false

def TEST_MODE : Bool := true

def TEST_LIMIT : Nat := 20

def RESET_IGNORED_ITEMS : Bool := true

/-! ## Data model

`Item` is the per-record dict built by the source adapters
(`discover_shopify_catalog` lines 285-302, `discover_corvus_catalog`
lines 328-345, the Asmodee sheet rows lines 931-948): the fields the
main loop reads.  `LedgerEntry` is one value of `inventory_map`
(the `new_entry` dict of lines 1044-1049). -/

structure Item where
  sku : String
  title : String
  vendor : String
  gameName : String
  description : String
  imagesSource : List String
  sourceTags : List String
  price : Option String
  compareAtPrice : Option String
  upc : Option String
  activeStatus : Bool
  releaseDate : Option String
  isSkeleton : Bool
deriving DecidableEq

structure LedgerEntry where
  sku : String
  title : String
  vendor : String
  cloudinaryImages : List String
  shopifyId : Option String
  releaseDate : Option String
  upc : Option String
  shopifyStatus : String
deriving DecidableEq

/-- The reconciliation outcomes of the main loop's branch ladder.
`quarantine` is in the vocabulary so the quarantine rule can be stated;
the source has no branch that produces it (nothing in
inventory_master_sync.py ever writes the state "PERMANENTLY_IGNORED"). -/
inductive Decision where
  | create
  | backfill
  | skipNoImage
  | skipUnavailable
  | quarantine
  | noOp
deriving DecidableEq

/-- Python truthiness of an optional string (None and "" are falsy). -/
def strOptTruthy : Option String → Bool
  | none => false
  | some s => !s.isEmpty

/-- Python `str()` applied to an optional string: `str(None)` is "None". -/
def pyStrOpt : Option String → String
  | none => "None"
  | some s => s

/-! ## Asmodee ledger lookup (`inventory_map`)

`inventory_map` is a Python dict keyed by sku; an association list with
dict update semantics (replace in place, append when new) models it. -/

def lookupEntry : List (String × LedgerEntry) → String → Option LedgerEntry
  | [], _ => none
  | (k, v) :: rest, s => if k == s then some v else lookupEntry rest s

def setEntry : List (String × LedgerEntry) → String → LedgerEntry → List (String × LedgerEntry)
  | [], s, v => [(s, v)]
  | (k, w) :: rest, s, v => if k == s then (k, v) :: rest else (k, w) :: setEntry rest s v

/-! ## The decision ladder (main loop, lines 978-1092) -/

/-- Lines 978-981: an existing entry whose `shopify_status` is
"PERMANENTLY_IGNORED" is skipped unless the reset flag is set. -/
def ignoredGuard (existing : Option LedgerEntry) (resetIgnoredItems : Bool) : Bool :=
  match existing with
  | some e => e.shopifyStatus == "PERMANENTLY_IGNORED" && !resetIgnoredItems
  | none => false

/-- The per-identity decision of the main loop, as a pure function of the
canonical source record, the existing ledger entry (or absence) and the
operator reset flag.  Branch for branch from lines 978-1092:
line 986 hardcodes `is_avail = True`, so the unavailable-skip at
lines 991-993 is unreachable; lines 996-1000 skip a new record with no
images only when its vendor is "Asmodee"; lines 1075-1085 backfill an
existing entry exactly when its stored images are empty and the source
has some. -/
def mainDecision (item : Item) (existing : Option LedgerEntry)
    (resetIgnoredItems : Bool) : Decision :=
  if ignoredGuard existing resetIgnoredItems then Decision.noOp
  else
    -- line 986: `is_avail = True` (the availability flag of the adapter is not read)
    let isAvail : Bool := true
    match existing with
    | none =>
      if !isAvail then Decision.skipUnavailable  -- lines 991-993, unreachable
      else if item.imagesSource.isEmpty && item.vendor == "Asmodee" then
        Decision.skipNoImage                      -- lines 996-1000
      else Decision.create                        -- lines 1002-1056
    | some e =>
      if e.cloudinaryImages.isEmpty && !item.imagesSource.isEmpty then
        Decision.backfill                         -- lines 1075-1083
      else Decision.noOp                          -- line 1084-1085

/-! ## The per-item processing step and its remote effects

`Event` is the vocabulary of destination writes the main loop performs:
the five-step creation sequence (lines 1007-1042), the media backfill of
an existing entry (line 1082), the diagnostic tag add (`add_tag`,
line 1091 - only reachable from dead code since `is_avail` is `True`),
and the single end-of-run ledger save (`repo.update_file` of
`JSON_FILE_PATH`, lines 1102-1105).  No remote call of
inventory_master_sync.py ever removes a tag or flips a price on an
already-listed product, so no such event exists. -/

inductive Event where
  | createShell (sku : String)
  | variantPriceSet (sku : String)
  | inventoryActivate (sku : String)
  | metafieldsSet (sku : String)
  | mediaAttach (sku : String)
  | tagAdd (sku tag : String)
  | persistLedger
deriving DecidableEq

/-- Responses of the remote collaborators the loop consults, passed in as
data: `resolveSkeleton` is `resolve_corvus_skeleton` (lines 467-500,
`none` when scraping fails), `checkStatus` is `check_shopify_status`
(lines 816-829, the healed product id), and `createProduct` is
`create_shopify_product_shell` (the product id of a successful
`productCreate`, `none` on failure, lines 586-649). -/
structure Oracles where
  resolveSkeleton : Item → Option Item
  checkStatus : String → Option String
  createProduct : Item → Option String

/-- Mutable state of one run of `main`: the in-memory ledger map, the
`updates_made` flag, the `successful_drafts_count` counter and the trace
of destination writes performed so far. -/
structure RunState where
  inventoryMap : List (String × LedgerEntry)
  updatesMade : Bool
  successCount : Nat
  events : List Event
deriving DecidableEq

/-- The destination writes of a successful creation (lines 1007-1042):
shell create, variant update (sku/price/weight/barcode), inventory
activation at the named location, metafields when `game_name` is
non-empty (line 1033), and media attach when there are images to attach
(`update_shopify_images` returns at once on an empty url list,
line 785).  The Cloudinary upload is modelled as handing back the
source urls (its fallback behaviour once rate-limited, lines 546-548). -/
def createEvents (item : Item) : List Event :=
  [Event.createShell item.sku, Event.variantPriceSet item.sku,
   Event.inventoryActivate item.sku]
  ++ (if item.gameName == "" then [] else [Event.metafieldsSet item.sku])
  ++ (if item.imagesSource.isEmpty then [] else [Event.mediaAttach item.sku])

/-- The ledger entry recorded for a freshly created product
(`new_entry`, lines 1044-1049). -/
def createdEntry (item : Item) (prodId : String) : LedgerEntry :=
  { sku := item.sku
    title := item.title
    vendor := item.vendor
    cloudinaryImages := item.imagesSource
    shopifyId := some prodId
    releaseDate := item.releaseDate
    upc := item.upc
    shopifyStatus := "DRAFT_CREATED" }

/-- One iteration of the main loop for one queue row (lines 967-1092):
skeleton resolution, the permanently-ignored guard, then either the
creation path (no existing entry) or the self-healing / image-backfill
path (existing entry).  The loop's counters `skips_count` and the dead
`if not is_avail` block at lines 1087-1092 have no effect on the state
modelled here. -/
def processItem (os : Oracles) (resetIgnoredItems : Bool) (st : RunState)
    (item0 : Item) : RunState :=
  -- lines 967-971: skeleton rows are resolved first; failure skips the row
  match (if item0.isSkeleton then os.resolveSkeleton item0 else some item0) with
  | none => st
  | some item =>
    let existing := lookupEntry st.inventoryMap item.sku
    if ignoredGuard existing resetIgnoredItems then st  -- lines 978-981
    else
      match existing with
      | none =>
        -- lines 990-1000 (is_avail is True, so only the image check applies)
        if item.imagesSource.isEmpty && item.vendor == "Asmodee" then st
        else
          match os.createProduct item with
          | some prodId =>
            -- lines 1007-1053: creation succeeded, entry recorded in memory
            { inventoryMap := setEntry st.inventoryMap item.sku (createdEntry item prodId)
              updatesMade := true
              successCount := st.successCount + 1
              events := st.events ++ createEvents item }
          | none => st  -- lines 1054-1056: creation failed, row skipped
      | some e =>
        -- lines 1066-1073: self-healing shopify_id lookup
        let healed : LedgerEntry × Bool :=
          match e.shopifyId with
          | some _ => (e, st.updatesMade)
          | none =>
            match os.checkStatus item.sku with
            | some sid => ({ e with shopifyId := some sid }, true)
            | none => (e, st.updatesMade)
        let e1 := healed.1
        let stH : RunState :=
          { st with inventoryMap := setEntry st.inventoryMap item.sku e1
                    updatesMade := healed.2 }
        if e1.cloudinaryImages.isEmpty && !item.imagesSource.isEmpty then
          -- lines 1075-1083: backfill stored images from the source
          let e2 := { e1 with cloudinaryImages := item.imagesSource }
          { inventoryMap := setEntry st.inventoryMap item.sku e2
            updatesMade := true
            successCount :=
              match e1.shopifyId with
              | some _ => st.successCount + 1
              | none => st.successCount
            events :=
              st.events ++
                match e1.shopifyId with
                | some _ => [Event.mediaAttach item.sku]
                | none => [] }
        else stH  -- lines 1084-1085

/-- The item loop (lines 962-1092): each iteration first checks the test
limit (lines 963-965) and stops once `TEST_LIMIT` successful uploads
were counted in test mode. -/
def runItems (os : Oracles) (resetIgnoredItems : Bool) :
    RunState → List Item → RunState
  | st, [] => st
  | st, item :: rest =>
    if TEST_MODE && decide (TEST_LIMIT ≤ st.successCount) then st
    else runItems os resetIgnoredItems (processItem os resetIgnoredItems st item) rest

/-- A whole run over a queue, from a loaded ledger map: the loop followed
by the single durable ledger save of lines 1102-1105 (`DRY_RUN` is
false, so the JSON is written exactly when `updates_made` is true). -/
def runMain (os : Oracles) (resetIgnoredItems : Bool)
    (initialMap : List (String × LedgerEntry)) (queue : List Item) : RunState :=
  let st := runItems os resetIgnoredItems
    { inventoryMap := initialMap, updatesMade := false, successCount := 0, events := [] } queue
  if st.updatesMade then { st with events := st.events ++ [Event.persistLedger] } else st

/-! ## Run start-up and ledger load (lines 859-881)

`main` aborts when the Shopify connection test fails (lines 862-864) or
the fulfillment location cannot be found (lines 867-870); acquiring the
GitHub repository handle (lines 872-874) is outside any try block, so
its failure also ends the run.  The ledger load itself (lines 876-879)
is a bare `except:` - a missing file, a fetch error and corrupt JSON
are all equally turned into an empty inventory and the run proceeds. -/

inductive LedgerLoadOutcome where
  | found (raw : List (String × LedgerEntry))
  | notFound
  | fetchFailed (msg : String)
  | corrupt (msg : String)
deriving DecidableEq

/-- Lines 876-879: any exception while fetching or parsing the ledger
file leaves `inventory_data = []`. -/
def loadInventoryMap : LedgerLoadOutcome → List (String × LedgerEntry)
  | LedgerLoadOutcome.found raw => raw
  | LedgerLoadOutcome.notFound => []
  | LedgerLoadOutcome.fetchFailed _ => []
  | LedgerLoadOutcome.corrupt _ => []

inductive RunStart where
  | aborted
  | proceed (invMap : List (String × LedgerEntry))
deriving DecidableEq

/-- The start of `main` (lines 859-881) as a function of the three
start-up outcomes. -/
def mainStart (connectionOk locationFound repoHandleOk : Bool)
    (ledger : LedgerLoadOutcome) : RunStart :=
  if !connectionOk then RunStart.aborted
  else if !locationFound then RunStart.aborted
  else if !repoHandleOk then RunStart.aborted
  else RunStart.proceed (loadInventoryMap ledger)

/-! ## Product shell creation (`create_shopify_product_shell`, lines 586-623)

The GraphQL `productCreate` input built for a new product; only the
fields the mutation sets are modelled (the derived `seo` block repeats
`title` and a truncation of the description). -/

structure ShellInput where
  title : String
  status : String
  vendor : String
  productType : String
  tags : List String
  descriptionHtml : String
deriving DecidableEq

/-- Lines 592-594: the tag list starts from "Review Needed",
"New Auto-Import" and the vendor, and appends the release tag when a
release date is known. -/
def shellTagsBase (vendor : String) (releaseDate : Option String) : List String :=
  if strOptTruthy releaseDate then
    ["Review Needed", "New Auto-Import", vendor] ++ ["Release: " ++ releaseDate.getD ""]
  else ["Review Needed", "New Auto-Import", vendor]

/-- Lines 595-597: each extra tag not already present is appended. -/
def shellTags (vendor : String) (releaseDate : Option String)
    (extraTags : List String) : List String :=
  extraTags.foldl (fun acc t => if t ∈ acc then acc else acc ++ [t])
    (shellTagsBase vendor releaseDate)

/-- Lines 603-614: the `productCreate` input: status is the literal
"DRAFT"; the description falls back to a release note when empty. -/
def create_shopify_product_shell (productData : Item) (releaseDate : Option String)
    (extraTags : List String) : ShellInput :=
  { title := productData.title
    status := "DRAFT"
    vendor := productData.vendor
    productType := "Dice Sets & Games"
    tags := shellTags productData.vendor releaseDate extraTags
    descriptionHtml :=
      if !productData.description.isEmpty then productData.description
      else if strOptTruthy releaseDate then
        "<p>Release: " ++ releaseDate.getD "" ++ "</p>"
      else "" }

/-! ## The standalone cost/compare updater (standalone_json_updater.py)

`find_shopify_product_ids` (lines 83-137) queries the live product by
sku and extracts the variant id, its current compare-at price, the
inventory item id and its current unit cost; the product's status and
selling price are not part of the query.  `update_cost_and_compare`
(lines 139-183) then emits a compare-at mutation when the stringified
target differs from the stringified current value, and a cost mutation
likewise.  Values travel as optional strings (JSON string or null);
Python renders `None` as "None" under `str()`. -/

structure ShopLiveProduct where
  productId : String
  variantId : String
  sku : String
  status : String
  currentPrice : Nat
  compareAtPrice : Option String
  inventoryItemId : String
  unitCost : Option String
deriving DecidableEq

/-- A live product listed with Shopify status "ACTIVE" is a published
listing. -/
def isPublished (p : ShopLiveProduct) : Bool :=
  p.status == "ACTIVE"

structure UpdaterIds where
  variantId : String
  currentCompare : Option String
  inventoryItemId : String
  currentCost : Option String
deriving DecidableEq

structure UpdaterTarget where
  targetCost : Option String
  targetCompare : Option String
  title : Option String
deriving DecidableEq

/-- Lines 125-134: the fields `find_shopify_product_ids` extracts from
the live product it matched by sku. -/
def find_shopify_product_ids (p : ShopLiveProduct) : UpdaterIds :=
  { variantId := p.variantId
    currentCompare := p.compareAtPrice
    inventoryItemId := p.inventoryItemId
    currentCost := p.unitCost }

inductive UpdaterAction where
  | setCompareAtPrice (variantId value : String)
  | setCost (inventoryItemId value : String)
deriving DecidableEq

/-- Lines 139-183: the mutations `update_cost_and_compare` performs.
Both branches guard on Python truthiness of the target and on
`str(target) != str(current)` - a raw string comparison. -/
def update_cost_and_compare (ids : UpdaterIds) (target : UpdaterTarget) :
    List UpdaterAction :=
  (if strOptTruthy target.targetCompare &&
      !(pyStrOpt target.targetCompare == pyStrOpt ids.currentCompare) then
    [UpdaterAction.setCompareAtPrice ids.variantId (pyStrOpt target.targetCompare)]
  else [])
  ++
  (if strOptTruthy target.targetCost &&
      !(pyStrOpt target.targetCost == pyStrOpt ids.currentCost) then
    [UpdaterAction.setCost ids.inventoryItemId (pyStrOpt target.targetCost)]
  else [])

/-- Every action of the updater mutates a price-bearing field (the
variant's compare-at price or the inventory item's unit cost). -/
def isPriceMutation : UpdaterAction → Bool
  | UpdaterAction.setCompareAtPrice _ _ => true
  | UpdaterAction.setCost _ _ => true

def isCompareUpdate : UpdaterAction → Bool
  | UpdaterAction.setCompareAtPrice _ _ => true
  | UpdaterAction.setCost _ _ => false

/-! ## Spec-side money reading

The specification asks that money be compared as fixed-point with two
decimal digits.  `specMoneyCents` is that spec-side reading (named so
because it follows the specification's words, not the source): a
decimal string becomes a count of cents, the fractional part truncated
or zero-padded to two digits.  It exists only to be compared with the
source's raw string comparison above. -/

def digitsValAux : List Char → Nat → Option Nat
  | [], acc => some acc
  | c :: rest, acc =>
    if c.isDigit then digitsValAux rest (acc * 10 + (c.toNat - 48)) else none

def digitsVal : List Char → Option Nat
  | [] => none
  | c :: rest => digitsValAux (c :: rest) 0

def splitAtDot : List Char → List Char × List Char
  | [] => ([], [])
  | c :: rest =>
    if c = '.' then ([], rest)
    else
      let p := splitAtDot rest
      (c :: p.1, p.2)

def specMoneyCents (s : String) : Option Nat :=
  let p := splitAtDot s.toList
  match digitsVal p.1 with
  | none => none
  | some whole =>
    match digitsVal ((p.2 ++ ['0', '0']).take 2) with
    | none => none
    | some frac => some (whole * 100 + frac)

/-! ## Trace predicates -/

def isCreateShell : Event → Bool
  | Event.createShell _ => true
  | _ => false

def createShellCount (evs : List Event) : Nat :=
  (evs.filter isCreateShell).length

def persistCount (evs : List Event) : Nat :=
  (evs.filter (fun e => e == Event.persistLedger)).length

/-- `sepByPersist pending evs` holds when, scanning `evs`, a ledger
persist separates every two shell creations (so each created identity
was durably recorded before the next identity's creation); `pending`
says whether a creation is still awaiting its persist. -/
def sepByPersist : Bool → List Event → Bool
  | _, [] => true
  | _, Event.persistLedger :: rest => sepByPersist false rest
  | pending, Event.createShell _ :: rest => !pending && sepByPersist true rest
  | pending, _ :: rest => sepByPersist pending rest

/-! ## Concrete fixtures -/

def defaultItem : Item :=
  { sku := "", title := "", vendor := "", gameName := "", description := ""
    imagesSource := [], sourceTags := [], price := none, compareAtPrice := none
    upc := none, activeStatus := true, releaseDate := none, isSkeleton := false }

/-- Oracle responses for the concrete runs: skeleton resolution is never
needed, the status lookup finds nothing, and every product creation
succeeds with a predictable id. -/
def plainOracles : Oracles :=
  { resolveSkeleton := fun _ => none
    checkStatus := fun _ => none
    createProduct := fun it => some ("gid-" ++ it.sku) }

def emptyRunState : RunState :=
  { inventoryMap := [], updatesMade := false, successCount := 0, events := [] }

def itemAdapterA : Item :=
  { defaultItem with sku := "X1", title := "Record A", vendor := "Corvus Belli"
                     gameName := "Infinity", imagesSource := ["a-1.jpg"] }

def itemAdapterB : Item :=
  { defaultItem with sku := "X1", title := "Record B", vendor := "Corvus Belli"
                     gameName := "Infinity", imagesSource := ["b-1.jpg"] }

def itemRunA : Item :=
  { defaultItem with sku := "A1", title := "Alpha", vendor := "Corvus Belli"
                     gameName := "Infinity", imagesSource := ["alpha.jpg"] }

def itemRunB : Item :=
  { defaultItem with sku := "B1", title := "Beta", vendor := "Goblin King Games"
                     gameName := "Moonstone", imagesSource := ["beta.jpg"] }

def unavailableItemC6 : Item :=
  { defaultItem with sku := "CB-77", title := "Infinity: Unit", vendor := "Corvus Belli"
                     gameName := "Infinity", imagesSource := ["unit.jpg"], activeStatus := false }

def asmodeeNoImageItem : Item :=
  { defaultItem with sku := "SWL99", title := "Star Wars: Legion: Unit"
                     vendor := "Asmodee", gameName := "Star Wars: Legion"
                     activeStatus := false }

def ignoredEntry : LedgerEntry :=
  { sku := "IGN1", title := "Quarantined", vendor := "Asmodee", cloudinaryImages := []
    shopifyId := none, releaseDate := none, upc := none
    shopifyStatus := "PERMANENTLY_IGNORED" }

def ignoredItem : Item :=
  { defaultItem with sku := "IGN1", title := "Quarantined", vendor := "Asmodee" }

def ignoredState : RunState :=
  { inventoryMap := [("IGN1", ignoredEntry)], updatesMade := false
    successCount := 0, events := [] }

def backfillEntry : LedgerEntry :=
  { sku := "S1", title := "Stored", vendor := "Corvus Belli", cloudinaryImages := []
    shopifyId := some "gid-s1", releaseDate := none, upc := none
    shopifyStatus := "DRAFT_CREATED" }

def backfillItem : Item :=
  { defaultItem with sku := "S1", title := "Stored", vendor := "Corvus Belli"
                     imagesSource := ["s1.jpg"] }

def backfillState : RunState :=
  { inventoryMap := [("S1", backfillEntry)], updatesMade := false
    successCount := 0, events := [] }

def liveListedC2 : ShopLiveProduct :=
  { productId := "gid-p-1", variantId := "gid-v-1", sku := "S2", status := "ACTIVE"
    currentPrice := 2999, compareAtPrice := some "29.99"
    inventoryItemId := "gid-i-1", unitCost := some "15.00" }

def targetC2 : UpdaterTarget :=
  { targetCost := none, targetCompare := some "19.99", title := some "Widget" }

def idsCompare1999 : UpdaterIds :=
  { variantId := "gid-v-8", currentCompare := some "19.99"
    inventoryItemId := "gid-i-8", currentCost := none }

def targetCompare19990 : UpdaterTarget :=
  { targetCost := none, targetCompare := some "19.990", title := none }

def targetCompare2000 : UpdaterTarget :=
  { targetCost := none, targetCompare := some "20.00", title := none }

def targetCompare1999 : UpdaterTarget :=
  { targetCost := none, targetCompare := some "19.99", title := none }

/-! ## Helper lemmas -/

theorem lookup_setEntry_self (m : List (String × LedgerEntry)) (k : String) (v : LedgerEntry) :
    lookupEntry (setEntry m k v) k = some v := by
  induction m with
  | nil => simp [setEntry, lookupEntry]
  | cons hd tl ih =>
    obtain ⟨k', w⟩ := hd
    by_cases h : (k' == k) = true
    · simp [setEntry, lookupEntry, h]
    · simp only [setEntry]
      rw [if_neg h]
      simp only [lookupEntry]
      rw [if_neg h]
      exact ih

theorem persistCount_append (l1 l2 : List Event) :
    persistCount (l1 ++ l2) = persistCount l1 + persistCount l2 := by
  simp [persistCount, List.filter_append]

theorem persistCount_createEvents (it : Item) : persistCount (createEvents it) = 0 := by
  unfold createEvents persistCount
  split <;> split <;> simp

theorem createShellCount_append (l1 l2 : List Event) :
    createShellCount (l1 ++ l2) = createShellCount l1 + createShellCount l2 := by
  simp [createShellCount, List.filter_append]

theorem createShellCount_createEvents (it : Item) :
    createShellCount (createEvents it) = 1 := by
  unfold createEvents createShellCount
  split <;> split <;> simp [isCreateShell]

theorem mem_dedup_foldl (l : List String) (acc : List String) (t : String)
    (h : t ∈ acc) :
    t ∈ l.foldl (fun acc t => if t ∈ acc then acc else acc ++ [t]) acc := by
  induction l generalizing acc with
  | nil => exact h
  | cons x xs ih =>
    simp only [List.foldl_cons]
    apply ih
    by_cases hx : x ∈ acc
    · simpa [hx]
    · simp only [hx, if_false]
      exact List.mem_append_left _ h

/-! ## Claims -/

/-- Claim C1: the per-identity decision procedure is deterministic - two
evaluations of `mainDecision` on identical triples of inputs (canonical
source record, existing ledger entry or absence, operator reset flag)
return the same single outcome. -/
theorem decision_deterministic_C1 (item item2 : Item)
    (existing existing2 : Option LedgerEntry) (reset reset2 : Bool)
    (hi : item = item2) (he : existing = existing2) (hr : reset = reset2) :
    mainDecision item existing reset = mainDecision item2 existing2 reset2 := by
  subst hi; subst he; subst hr; rfl

/-- Witness for C1 at a concrete triple of inputs. -/
theorem decision_deterministic_C1_witness :
    mainDecision defaultItem none false = mainDecision defaultItem none false :=
  decision_deterministic_C1 defaultItem defaultItem none none false false rfl rfl rfl

/-- Claim C4: an identity whose ledger entry has state
"PERMANENTLY_IGNORED" is a no-op whenever the operator reset flag is not
set: the decision is `noOp` and the processing step leaves the run state
untouched (no remote effect, no ledger change), on any run with the
flag unset. -/
theorem quarantine_noop_C4 (os : Oracles) (st : RunState) (item : Item)
    (e : LedgerEntry) (hs : item.isSkeleton = false)
    (hl : lookupEntry st.inventoryMap item.sku = some e)
    (hq : e.shopifyStatus = "PERMANENTLY_IGNORED") :
    mainDecision item (some e) false = Decision.noOp ∧
    processItem os false st item = st := by
  constructor
  · simp [mainDecision, ignoredGuard, hq]
  · simp [processItem, hs, hl, ignoredGuard, hq]

/-- Witness for C4: a concrete quarantined identity is left alone. -/
theorem quarantine_noop_C4_witness :
    mainDecision ignoredItem (some ignoredEntry) false = Decision.noOp ∧
    processItem plainOracles false ignoredState ignoredItem = ignoredState :=
  quarantine_noop_C4 plainOracles ignoredState ignoredItem ignoredEntry rfl
    (by decide) rfl

/-- Claim C5 counterexample: a ledger load failure other than the
missing-ledger case (corrupt ledger JSON) does not abort the run - the
run proceeds with an empty inventory map. -/
theorem ledger_corrupt_not_fatal_C5_counterexample :
    (mainStart true true true (LedgerLoadOutcome.corrupt "unparsable ledger JSON")
      == RunStart.aborted) = false ∧
    mainStart true true true (LedgerLoadOutcome.corrupt "unparsable ledger JSON")
      = RunStart.proceed [] := by
  decide

/-- Claim C5 (amended): every failure inside the ledger load step -
missing file, fetch error or corrupt JSON - is treated as an empty
mapping and the run proceeds; no ledger load failure aborts the run
(only the earlier connection, location and repository-handle checks
abort). -/
theorem ledger_load_failures_continue_C5 (msg : String) :
    mainStart true true true (LedgerLoadOutcome.corrupt msg) = RunStart.proceed [] ∧
    mainStart true true true (LedgerLoadOutcome.fetchFailed msg) = RunStart.proceed [] ∧
    mainStart true true true LedgerLoadOutcome.notFound = RunStart.proceed [] :=
  ⟨rfl, rfl, rfl⟩

/-- Claim C6 counterexample: a source record flagged unavailable by its
adapter, never created before (no ledger entry), is not a no-op - the
decision is `create`. -/
theorem unavailable_item_created_C6_counterexample :
    unavailableItemC6.activeStatus = false ∧
    (mainDecision unavailableItemC6 none false == Decision.noOp) = false ∧
    mainDecision unavailableItemC6 none false = Decision.create := by
  decide

/-- Claim C6 (amended): the engine ignores the adapter's availability
flag entirely (the loop hardcodes `is_avail = True`), so for any inputs
the decision is the same whether the record is flagged available or
unavailable; in particular an unavailable never-created record is
processed exactly like an available one. -/
theorem availability_flag_ignored_C6 (item : Item)
    (existing : Option LedgerEntry) (reset : Bool) (b : Bool) :
    mainDecision { item with activeStatus := b } existing reset
      = mainDecision item existing reset := rfl

/-- Claim C7 counterexample: an Asmodee record that requires images, has
none, is flagged unavailable and has no ledger entry is not quarantined
- the decision is the transient `skipNoImage`. -/
theorem no_quarantine_C7_counterexample :
    asmodeeNoImageItem.activeStatus = false ∧
    asmodeeNoImageItem.imagesSource = [] ∧
    (mainDecision asmodeeNoImageItem none false == Decision.quarantine) = false ∧
    mainDecision asmodeeNoImageItem none false = Decision.skipNoImage := by
  decide

/-- Claim C7 (amended): only Asmodee-vendor records require images, and
an Asmodee record with an empty image list and no ledger entry is
decided `skipNoImage` regardless of availability - never `create`, and
never `quarantine` (no branch of the engine produces a quarantine). -/
theorem asmodee_no_image_skip_C7 (item : Item) (reset : Bool)
    (hv : item.vendor = "Asmodee") (hi : item.imagesSource = []) :
    mainDecision item none reset = Decision.skipNoImage ∧
    (mainDecision item none reset == Decision.quarantine) = false := by
  simp [mainDecision, ignoredGuard, hv, hi]

/-- Witness for C7 at the concrete unavailable Asmodee record. -/
theorem asmodee_no_image_skip_C7_witness :
    mainDecision asmodeeNoImageItem none false = Decision.skipNoImage ∧
    (mainDecision asmodeeNoImageItem none false == Decision.quarantine) = false :=
  asmodee_no_image_skip_C7 asmodeeNoImageItem false rfl rfl

/-- Claim C8 counterexample: compare-at values "19.990" and "19.99" are
equal at 2-decimal fixed-point resolution, yet the updater's raw string
comparison treats them as different and emits a compare-at update. -/
theorem trailing_zero_update_C8_counterexample :
    specMoneyCents "19.990" = specMoneyCents "19.99" ∧
    ((update_cost_and_compare idsCompare1999 targetCompare19990).any isCompareUpdate)
      = true := by
  decide

/-- Claim C8 (amended): reference-price change detection compares the
Python `str()` images of the two values, not fixed-point money: a
trailing-zero variant ("19.990" against a live "19.99") triggers a
spurious compare-at update even though both equal 1999 cents; genuinely
different values ("20.00") also trigger an update; only identical
strings trigger none. -/
theorem string_compare_money_C8 :
    ((update_cost_and_compare idsCompare1999 targetCompare19990).any isCompareUpdate)
      = true ∧
    specMoneyCents "19.990" = specMoneyCents "19.99" ∧
    ((update_cost_and_compare idsCompare1999 targetCompare2000).any isCompareUpdate)
      = true ∧
    ((update_cost_and_compare idsCompare1999 targetCompare1999).any isCompareUpdate)
      = false := by
  decide

/-- Claim C10: every product the engine creates is created with status
"DRAFT" and with tags containing "Review Needed", "New Auto-Import" and
the vendor name, for every record, release date and extra tag list - so
no automatically created product can go live without human review. -/
theorem draft_only_creation_C10 (productData : Item) (releaseDate : Option String)
    (extraTags : List String) :
    (create_shopify_product_shell productData releaseDate extraTags).status = "DRAFT" ∧
    "Review Needed" ∈ (create_shopify_product_shell productData releaseDate extraTags).tags ∧
    "New Auto-Import" ∈ (create_shopify_product_shell productData releaseDate extraTags).tags ∧
    productData.vendor ∈ (create_shopify_product_shell productData releaseDate extraTags).tags := by
  have base : ∀ t : String, t ∈ (["Review Needed", "New Auto-Import", productData.vendor] : List String) →
      t ∈ shellTags productData.vendor releaseDate extraTags := by
    intro t ht
    unfold shellTags
    apply mem_dedup_foldl
    unfold shellTagsBase
    split
    · exact List.mem_append_left _ ht
    · exact ht
  refine ⟨rfl, ?_, ?_, ?_⟩
  · exact base _ (by simp)
  · exact base _ (by simp)
  · exact base _ (by simp)

/-- Claim C2 counterexample: a live, published listing with a positive
price (status "ACTIVE", price 29.99, compare-at "29.99") against a
source record claiming 19.99 - the standalone updater emits a
compare-at price mutation for it, with no status or price guard. -/
theorem published_price_mutation_C2_counterexample :
    isPublished liveListedC2 = true ∧
    0 < liveListedC2.currentPrice ∧
    ((update_cost_and_compare (find_shopify_product_ids liveListedC2) targetC2).any
      isPriceMutation) = true := by
  decide

/-- Claim C2 (amended): the master-sync engine itself never mutates a
price or deletes a tag of an item that already has a ledger entry - the
only destination write its existing-item path can add to the trace is a
media attach; the standalone updater, however, emits compare-at and
cost price mutations for any matched sku regardless of the live
product's status or price, so published items are not protected from
it. -/
theorem existing_item_actions_C2 (os : Oracles) (reset : Bool) (st : RunState)
    (item : Item) (e : LedgerEntry) (ev : Event)
    (hs : item.isSkeleton = false)
    (hl : lookupEntry st.inventoryMap item.sku = some e)
    (hm : ev ∈ (processItem os reset st item).events) :
    ev ∈ st.events ∨ ev = Event.mediaAttach item.sku := by
  cases he : e.shopifyId with
  | some sid =>
    simp only [processItem, hs, Bool.false_eq_true, if_false, hl, he] at hm
    split at hm
    · exact Or.inl hm
    · split at hm
      · simp only [List.mem_append, List.mem_singleton] at hm
        rcases hm with h | h
        · exact Or.inl h
        · exact Or.inr h
      · exact Or.inl hm
  | none =>
    cases hc : os.checkStatus item.sku with
    | some sid =>
      simp only [processItem, hs, Bool.false_eq_true, if_false, hl, he, hc] at hm
      split at hm
      · exact Or.inl hm
      · split at hm
        · simp only [List.mem_append, List.mem_singleton] at hm
          rcases hm with h | h
          · exact Or.inl h
          · exact Or.inr h
        · exact Or.inl hm
    | none =>
      simp only [processItem, hs, Bool.false_eq_true, if_false, hl, he, hc] at hm
      split at hm
      · exact Or.inl hm
      · split at hm
        · simp only [List.append_nil] at hm
          exact Or.inl hm
        · exact Or.inl hm

/-- Witness for C2: the concrete image backfill of an existing entry. -/
theorem existing_item_actions_C2_witness :
    Event.mediaAttach "S1" ∈ backfillState.events ∨
    Event.mediaAttach "S1" = Event.mediaAttach backfillItem.sku :=
  existing_item_actions_C2 plainOracles false backfillState backfillItem
    backfillEntry (Event.mediaAttach "S1") rfl (by decide) (by decide)

theorem createdEntry_shopifyId (it : Item) (pid : String) :
    (createdEntry it pid).shopifyId = some pid := rfl

theorem createdEntry_cloudinaryImages (it : Item) (pid : String) :
    (createdEntry it pid).cloudinaryImages = it.imagesSource := rfl

theorem createdEntry_status (it : Item) (pid : String) :
    (createdEntry it pid).shopifyStatus = "DRAFT_CREATED" := rfl

/-- Claim C3 counterexample: identity "X1" emitted by adapter A (queued
first) and adapter B (queued second); the surviving ledger record is
adapter A's, not adapter B's as last-applied-wins would demand. -/
theorem merge_last_wins_C3_counterexample :
    ((lookupEntry (runItems plainOracles false emptyRunState
        [itemAdapterA, itemAdapterB]).inventoryMap "X1").map LedgerEntry.title
      == some "Record B") = false ∧
    (lookupEntry (runItems plainOracles false emptyRunState
        [itemAdapterA, itemAdapterB]).inventoryMap "X1").map LedgerEntry.title
      = some "Record A" ∧
    createShellCount (runItems plainOracles false emptyRunState
        [itemAdapterA, itemAdapterB]).events = 1 := by
  decide

/-- Claim C3 (amended): the queue is processed first-applied-wins - the
first adapter's record for an identity drives the single creation and
becomes the surviving ledger entry; the later record for the same
identity is treated as an existing item (at most backfilling images)
and triggers no second creation, so at most one entry per identity
survives. -/
theorem merge_first_wins_C3 (os : Oracles) (reset : Bool) (st0 : RunState)
    (a b : Item) (pid : String)
    (hsa : a.isSkeleton = false) (hsb : b.isSkeleton = false)
    (hsku : b.sku = a.sku)
    (hfresh : lookupEntry st0.inventoryMap a.sku = none)
    (hcreate : os.createProduct a = some pid)
    (himg : a.imagesSource.isEmpty = false) :
    lookupEntry (processItem os reset (processItem os reset st0 a) b).inventoryMap a.sku
      = some (createdEntry a pid) ∧
    createShellCount (processItem os reset (processItem os reset st0 a) b).events
      = createShellCount st0.events + 1 := by
  have h1 : processItem os reset st0 a =
      { inventoryMap := setEntry st0.inventoryMap a.sku (createdEntry a pid)
        updatesMade := true
        successCount := st0.successCount + 1
        events := st0.events ++ createEvents a } := by
    simp only [processItem, hsa, Bool.false_eq_true, if_false, hfresh, ignoredGuard,
      himg, hcreate, Bool.false_and]
  rw [h1]
  have hlook : lookupEntry (setEntry st0.inventoryMap a.sku (createdEntry a pid)) b.sku
      = some (createdEntry a pid) := by
    rw [hsku]; exact lookup_setEntry_self _ _ _
  have hguard : ignoredGuard (some (createdEntry a pid)) reset = false := by
    simp [ignoredGuard, createdEntry_status]
  have h2 : processItem os reset
      { inventoryMap := setEntry st0.inventoryMap a.sku (createdEntry a pid)
        updatesMade := true
        successCount := st0.successCount + 1
        events := st0.events ++ createEvents a } b =
      { inventoryMap := setEntry (setEntry st0.inventoryMap a.sku (createdEntry a pid))
          b.sku (createdEntry a pid)
        updatesMade := true
        successCount := st0.successCount + 1
        events := st0.events ++ createEvents a } := by
    simp only [processItem, hsb, Bool.false_eq_true, if_false, hlook, hguard,
      createdEntry_shopifyId, createdEntry_cloudinaryImages, himg, Bool.false_and]
  rw [h2]
  constructor
  · rw [← hsku]
    exact lookup_setEntry_self _ _ _
  · rw [createShellCount_append, createShellCount_createEvents]

/-- Witness for C3: the concrete duplicate pair of adapter records. -/
theorem merge_first_wins_C3_witness :
    lookupEntry (processItem plainOracles false
        (processItem plainOracles false emptyRunState itemAdapterA)
        itemAdapterB).inventoryMap itemAdapterA.sku
      = some (createdEntry itemAdapterA "gid-X1") ∧
    createShellCount (processItem plainOracles false
        (processItem plainOracles false emptyRunState itemAdapterA)
        itemAdapterB).events
      = createShellCount emptyRunState.events + 1 :=
  merge_first_wins_C3 plainOracles false emptyRunState itemAdapterA itemAdapterB
    "gid-X1" rfl rfl rfl rfl (by decide) rfl

theorem persistCount_mediaAttach (s : String) :
    persistCount [Event.mediaAttach s] = 0 := rfl

theorem persistCount_processItem (os : Oracles) (reset : Bool) (st : RunState)
    (item : Item) :
    persistCount (processItem os reset st item).events = persistCount st.events := by
  simp only [processItem]
  split
  · rfl
  · split
    · rfl
    · split
      · split
        · rfl
        · split
          · simp [persistCount_append, persistCount_createEvents]
          · rfl
      · split
        · rw [persistCount_append]
          split <;> simp [persistCount_mediaAttach, persistCount]
        · rfl

theorem persistCount_runItems (os : Oracles) (reset : Bool) (st : RunState)
    (queue : List Item) :
    persistCount (runItems os reset st queue).events = persistCount st.events := by
  induction queue generalizing st with
  | nil => rfl
  | cons i rest ih =>
    unfold runItems
    split
    · rfl
    · rw [ih, persistCount_processItem]

/-- Claim C9 counterexample: a run creating two fresh identities performs
both remote creations and only then a single ledger persist - no
durable ledger write separates the first identity's creation from the
processing of the second. -/
theorem batched_persist_C9_counterexample :
    createShellCount (runMain plainOracles false [] [itemRunA, itemRunB]).events = 2 ∧
    persistCount (runMain plainOracles false [] [itemRunA, itemRunB]).events = 1 ∧
    sepByPersist false (runMain plainOracles false [] [itemRunA, itemRunB]).events
      = false := by
  decide

/-- Claim C9 (amended): per-identity ledger updates during the loop are
in-memory only; the durable ledger write is a single end-of-run save,
appended after the whole item loop exactly when any update was made -
no ledger persist ever occurs inside the loop, so a crash mid-run loses
every ledger record of that run's creates. -/
theorem ledger_persist_end_of_run_C9 (os : Oracles) (reset : Bool)
    (initialMap : List (String × LedgerEntry)) (queue : List Item) :
    (runMain os reset initialMap queue).events =
      (runItems os reset
          { inventoryMap := initialMap, updatesMade := false
            successCount := 0, events := [] } queue).events ++
        (if (runItems os reset
              { inventoryMap := initialMap, updatesMade := false
                successCount := 0, events := [] } queue).updatesMade
          then [Event.persistLedger] else []) ∧
    persistCount (runItems os reset
        { inventoryMap := initialMap, updatesMade := false
          successCount := 0, events := [] } queue).events = 0 := by
  constructor
  · unfold runMain
    split
    · next h => simp [h]
    · next h => simp [h]
  · rw [persistCount_runItems]
    rfl
